import Mathlib

/-!
Verification development for a WhatsApp bulk-messaging actor (src/main.js).

The embedding models:
* session lifecycle state driven by transport events (`initializeClient` handlers),
* the polling wait loop (`waitForConnection`),
* the send guards and recipient normalization (`sendMessage`, `sendAttachment`),
* attachment-source resolution (`sendAttachment` media branch),
* the sequential bulk dispatch loop (`sendBulk` branch of `Apify.main`).

JavaScript strings are Lean `String`s; `undefined`/absent fields are `Option`;
JS truthiness of a string-valued field (`!to`, `if (attachment)`) is modelled by
`falsy` below (absent or empty string is falsy).  Wall-clock time in the wait
loop is modelled discretely: poll `k` happens `1000 * k` milliseconds after the
call starts (the loop sleeps exactly 1000 ms between checks and checks take no
time).  Side effects (transport sends, sleeps) are reified as an `Effect` list.
-/

/-- Session status strings used by src/main.js, as an enumeration. -/
inductive Status where
  | Initializing
  | QRPending
  | Connected
  | AuthFailed
  | Disconnected
deriving Repr, DecidableEq

/-- The literal status strings stored in `session.status` by the code. -/
def statusString : Status → String
  | Status.Initializing => "Initializing"
  | Status.QRPending => "QR Code Generated"
  | Status.Connected => "Connected"
  | Status.AuthFailed => "Authentication Failure"
  | Status.Disconnected => "Disconnected"

/-- JS truthiness for an optional string field: `undefined`, `null` and `""`
are falsy, every other string is truthy. -/
def falsy : Option String → Bool
  | none => true
  | some s => s == ""

/-- Registry snapshot for the send guards: session id to status
(`sessions` map restricted to what the guards read). -/
abbrev Registry := List (String × Status)

/-- `sessions.get(sessionId)?.status` of src/main.js. -/
def regStatus (reg : Registry) (sessionId : String) : Option Status :=
  List.lookup sessionId reg

/-- Recipient normalization of src/main.js lines 194 and 233:
`to.replace(/[^0-9]/g, '') + '@c.us'`. -/
def normalizeRecipient (recipient : String) : String :=
  String.mk (recipient.data.filter Char.isDigit) ++ "@c.us"

/-- The error message thrown by the send guards:
`Session X is not connected. Current status: S` with `S` the current status
string or `Not found` when the session is absent. -/
def notConnectedMsg (reg : Registry) (sessionId : String) : String :=
  "Session " ++ sessionId ++ " is not connected. Current status: " ++
    (match regStatus reg sessionId with
     | some st => statusString st
     | none => "Not found")

/-- `sendMessage` of src/main.js lines 189-201.  A successful run returns the
transport send it performs: the normalized chat id and the message body.
An `Except.error` return means no transport send happened. -/
def sendMessage (reg : Registry) (sessionId recipient message : String) :
    Except String (String × String) :=
  if regStatus reg sessionId = some Status.Connected then
    Except.ok (normalizeRecipient recipient, message)
  else
    Except.error (notConnectedMsg reg sessionId)

/-- The media value built by `sendAttachment` of src/main.js. -/
inductive Media where
  | fromFilePath (path : String)
  | fromUrl (url : String)
  | base64 (mimetype data filename : String)
deriving Repr, DecidableEq

/-- JS `s.split(',')` restricted to the comma separator: successive
comma-free segments of the character list. -/
def splitCommaAux : List Char → List Char → List String
  | [], acc => [String.mk acc.reverse]
  | c :: cs, acc =>
    if c = ',' then String.mk acc.reverse :: splitCommaAux cs []
    else splitCommaAux cs (c :: acc)

/-- JS `file.split(',')` for the data-URL prefix handling. -/
def splitComma (s : String) : List String :=
  splitCommaAux s.data []

/-- JS `file.startsWith('http')` as a character-list prefix test. -/
def strStartsWith (s p : String) : Bool :=
  List.isPrefixOf p.data s.data

/-- Attachment-source resolution of src/main.js lines 217-231, parametrized by
the `fs.existsSync` oracle: local file path first, then HTTP(S) URL, otherwise
inline base64.  The inline branch throws `if (!type)`, so a missing *or
empty-string* MIME type (JS falsy) is the validation error; with a truthy
type it takes `file.split(',')[1]` when the string contains a comma. -/
def resolveMedia (fileExists : String → Bool) (file : String)
    (mimeType : Option String) : Except String Media :=
  if fileExists file then
    Except.ok (Media.fromFilePath file)
  else if strStartsWith file "http" then
    Except.ok (Media.fromUrl file)
  else if falsy mimeType then
    Except.error "The \"type\" parameter is required for Base64 attachments."
  else
    let base64Data := if file.data.contains ',' then (splitComma file).getD 1 "" else file
    Except.ok (Media.base64 (mimeType.getD "") base64Data "file")

/-- `sendAttachment` of src/main.js lines 211-240: connection guard, then media
resolution, then the transport send (normalized chat id, media, caption). -/
def sendAttachment (fileExists : String → Bool) (reg : Registry)
    (sessionId recipient file caption : String) (mimeType : Option String) :
    Except String (String × Media × String) :=
  if regStatus reg sessionId = some Status.Connected then
    match resolveMedia fileExists file mimeType with
    | Except.error e => Except.error e
    | Except.ok m => Except.ok (normalizeRecipient recipient, m, caption)
  else
    Except.error (notConnectedMsg reg sessionId)

/-- What the spec's words ask for in the inline-base64 case: strip everything
up to and including the first comma before decoding. -/
def stripThroughFirstComma (s : String) : String :=
  String.mk ((s.data.dropWhile (fun c => !(c == ','))).drop 1)

/-- Transport lifecycle events handled by `initializeClient`
(src/main.js lines 88-147). -/
inductive WEvent where
  | qr (payload : String)
  | ready
  | authenticated
  | authFailure
  | disconnected
deriving Repr, DecidableEq

/-- Observable state of one session: the mutable `session` object's fields
plus whether the id is still in the `sessions` map (`registered`) and whether
the session's credential directory exists on disk (`credDir`). -/
structure MState where
  status : Status
  qrCode : Option String
  registered : Bool
  credDir : Bool
deriving Repr, DecidableEq

/-- The session object as created by `initializeClient` (src/main.js
lines 80-86): status `Initializing`, no QR payload, registered in the map;
the credential directory may or may not already exist on disk. -/
def initState (credDir : Bool) : MState :=
  { status := Status.Initializing, qrCode := none, registered := true,
    credDir := credDir }

/-- The event handlers of `initializeClient` (src/main.js lines 88-147):
`qr` stores the payload and sets `QR Code Generated`; `ready` clears the
payload and sets `Connected`; `authenticated` sets `Connected` (and does not
touch the payload); `auth_failure` sets `Authentication Failure`, deletes the
credential directory and removes the session from the map; `disconnected`
sets `Disconnected` and removes the session from the map, leaving the
credential directory on disk. -/
def stepEvent (s : MState) (e : WEvent) : MState :=
  match e with
  | WEvent.qr p => { s with qrCode := some p, status := Status.QRPending }
  | WEvent.ready => { s with qrCode := none, status := Status.Connected }
  | WEvent.authenticated => { s with status := Status.Connected }
  | WEvent.authFailure =>
    { s with status := Status.AuthFailed, credDir := false, registered := false }
  | WEvent.disconnected =>
    { s with status := Status.Disconnected, registered := false }

/-- Apply a sequence of transport events in arrival order. -/
def runEvents (s : MState) (es : List WEvent) : MState :=
  es.foldl stepEvent s

/-- What `waitForConnection` reads of a session at one poll instant. -/
structure SessView where
  status : Status
  qrCode : Option String
deriving Repr, DecidableEq

/-- The value returned by `waitForConnection`: absent JS fields are `none`. -/
structure WaitResult where
  connected : Bool
  qrCode : Option String
  status : Option String
deriving Repr, DecidableEq

/-- The return value built after the poll loop exhausts the timeout
(src/main.js lines 179-180): `connected:false` with the session's last known
status or `Not found`. -/
def timeoutResult (trace : Nat → Option SessView) (k : Nat) : WaitResult :=
  { connected := false, qrCode := none,
    status := some (match trace k with
      | some s => statusString s.status
      | none => "Not found") }

/-- One poll loop of `waitForConnection` (src/main.js lines 167-181) over a
trace of session snapshots: poll `k` sees `trace k` and happens `1000 * k` ms
after the call starts (the loop sleeps 1000 ms between polls).  The loop runs
while elapsed time is strictly below the timeout; inside it returns
`connected:true` when the status is `Connected`, else returns the QR payload
when one is (truthily) present, else keeps polling.  `fuel` bounds the
recursion; with enough fuel the `fuel = 0` case is never reached and is
defined to coincide with the timeout exit. -/
def waitAux (trace : Nat → Option SessView) (timeout : Int) :
    Nat → Nat → WaitResult
  | 0, k => timeoutResult trace k
  | fuel + 1, k =>
    if 1000 * (k : Int) < timeout then
      match trace k with
      | some s =>
        if s.status = Status.Connected then
          { connected := true, qrCode := none, status := none }
        else if falsy s.qrCode then
          waitAux trace timeout fuel (k + 1)
        else
          { connected := false, qrCode := s.qrCode,
            status := some (statusString s.status) }
      | none => waitAux trace timeout fuel (k + 1)
    else
      timeoutResult trace k

/-- `waitForConnection` of src/main.js lines 167-181 over a snapshot trace.
`timeout.toNat + 1` polls always suffice because poll `k` requires
`1000 * k < timeout`. -/
def waitForConnection (trace : Nat → Option SessView) (timeout : Int) :
    WaitResult :=
  waitAux trace timeout (timeout.toNat + 1) 0

/-- Does the poll loop see a connected session in this snapshot? -/
def viewConnected : Option SessView → Bool
  | some s => decide (s.status = Status.Connected)
  | none => false

/-- Does this snapshot trigger the QR early return of the poll loop
(session present, not connected, truthy QR payload)? -/
def viewQrBlocks : Option SessView → Bool
  | some s => decide (¬s.status = Status.Connected) && !falsy s.qrCode
  | none => false

/-- One item of the `messages` input array of the `sendBulk` branch. -/
structure BulkItem where
  recipient : Option String
  message : Option String
  attachment : Option String
  attachmentType : Option String
  caption : Option String
  delay : Option Int
deriving Repr, DecidableEq

/-- One entry of the `results` array pushed by the `sendBulk` branch; fields
absent in the pushed JS object are `none`.  `kind` is the `type` field of the
JS object (`"text"` or `"attachment"`). -/
structure DispatchResult where
  index : Nat
  success : Bool
  recipient : Option String
  kind : Option String
  message : Option String
  error : Option String
deriving Repr, DecidableEq

/-- Reified side effects of the bulk loop: invoking the send helper for the
1-based item index, and sleeping for a duration. -/
inductive Effect where
  | send (index : Nat)
  | sleep (ms : Int)
deriving Repr, DecidableEq

/-- `delay !== undefined ? delay : delayBetweenMessages`
(src/main.js line 475). -/
def effDelay (defaultDelay : Int) (it : BulkItem) : Int :=
  match it.delay with
  | some d => d
  | none => defaultDelay

/-- The result pushed for an item whose `to` is missing
(src/main.js lines 465-469). -/
def missingToResult (idx : Nat) : DispatchResult :=
  { index := idx, success := false, recipient := none, kind := none,
    message := none, error := some "Missing required parameter: to" }

/-- The bulk loop of src/main.js lines 454-522, item by item.  `outcome i`
abstracts the sent-or-thrown behaviour of the underlying
`sendAttachment`/`sendMessage` call for the item at 0-based position `i`
(its `Except.error` message is whatever `error.message` the catch sees);
`n` is `messages.length` and `i` the current 0-based position.  Returns the
`results` array and the ordered effect trace. -/
def sendBulkGo (outcome : Nat → Except String Unit) (defaultDelay : Int)
    (n : Nat) : List BulkItem → Nat → List DispatchResult × List Effect
  | [], _ => ([], [])
  | it :: rest, i =>
    let restOut := sendBulkGo outcome defaultDelay n rest (i + 1)
    if falsy it.recipient then
      (missingToResult (i + 1) :: restOut.1, restOut.2)
    else if falsy it.attachment && falsy it.message then
      ({ index := i + 1, success := false, recipient := it.recipient,
         kind := none, message := none,
         error := some "Missing required parameter: message or attachment" }
         :: restOut.1,
       restOut.2)
    else
      match outcome i with
      | Except.ok _ =>
        ({ index := i + 1, success := true, recipient := it.recipient,
           kind := some (if falsy it.attachment then "text" else "attachment"),
           message := some (if falsy it.attachment then
             "Message sent successfully" else "Attachment sent successfully"),
           error := none } :: restOut.1,
         Effect.send (i + 1) ::
           ((if i < n - 1 ∧ effDelay defaultDelay it > 0 then
               [Effect.sleep (effDelay defaultDelay it)] else []) ++ restOut.2))
      | Except.error e =>
        ({ index := i + 1, success := false, recipient := it.recipient,
           kind := none, message := none, error := some e } :: restOut.1,
         Effect.send (i + 1) :: restOut.2)

/-- The whole `sendBulk` loop over the input array. -/
def sendBulk (outcome : Nat → Except String Unit) (defaultDelay : Int)
    (items : List BulkItem) : List DispatchResult × List Effect :=
  sendBulkGo outcome defaultDelay items.length items 0

/-- The record pushed after the bulk loop (src/main.js lines 533-541). -/
structure BatchSummary where
  total : Nat
  successful : Nat
  failed : Nat
  results : List DispatchResult
deriving Repr, DecidableEq

/-- `total`, `successCount`, `failCount` and `results` as computed at
src/main.js lines 524-541. -/
def sendBulkSummary (outcome : Nat → Except String Unit) (defaultDelay : Int)
    (items : List BulkItem) : BatchSummary :=
  { total := items.length,
    successful := ((sendBulk outcome defaultDelay items).1.filter
      (fun r => r.success)).length,
    failed := ((sendBulk outcome defaultDelay items).1.filter
      (fun r => !r.success)).length,
    results := (sendBulk outcome defaultDelay items).1 }

/-- The sleep durations of an effect trace, in order. -/
def sleepsOf : List Effect → List Int
  | [] => []
  | Effect.send _ :: es => sleepsOf es
  | Effect.sleep d :: es => d :: sleepsOf es

/-- Does the bulk loop record the item at 0-based position `i` as a success?
That is: its `to` is truthy, it carries an attachment or a message, and the
underlying send did not throw. -/
def itemOk (outcome : Nat → Except String Unit) (i : Nat) (it : BulkItem) :
    Bool :=
  !falsy it.recipient && !(falsy it.attachment && falsy it.message) &&
    (match outcome i with
     | Except.ok _ => true
     | Except.error _ => false)

/-- The inter-item pacing the amended claim describes: one suspension of the
effective delay after each successfully processed item that is not the last
item of the batch and whose effective delay is positive, in item order, and
no suspension after any other item. -/
def sleepsSpec (outcome : Nat → Except String Unit) (defaultDelay : Int)
    (n : Nat) : List BulkItem → Nat → List Int
  | [], _ => []
  | it :: rest, i =>
    (if itemOk outcome i it = true ∧ i < n - 1 ∧ effDelay defaultDelay it > 0
     then [effDelay defaultDelay it] else []) ++
      sleepsSpec outcome defaultDelay n rest (i + 1)

/-- The status string the wait loop reports for a snapshot after timeout. -/
def viewStatusString : Option SessView → String
  | some s => statusString s.status
  | none => "Not found"

/-- A trace whose session shows a pending QR payload at poll 0 and is
`Connected` from poll 1 (1000 ms after the call) on. -/
def qrThenConnTrace : Nat → Option SessView :=
  fun k =>
    if k = 0 then some { status := Status.QRPending, qrCode := some "Q" }
    else some { status := Status.Connected, qrCode := none }

/-- A trace whose session is already `Connected` at every poll instant. -/
def connTrace : Nat → Option SessView :=
  fun _ => some { status := Status.Connected, qrCode := none }

/-- A plain one-message bulk item. -/
def itHi : BulkItem :=
  { recipient := some "1", message := some "hi", attachment := none,
    attachmentType := none, caption := none, delay := none }

/-- A bulk item whose underlying send will be made to fail. -/
def itA : BulkItem :=
  { recipient := some "111", message := some "a", attachment := none,
    attachmentType := none, caption := none, delay := none }

/-- A bulk item whose underlying send will succeed. -/
def itB : BulkItem :=
  { recipient := some "222", message := some "b", attachment := none,
    attachmentType := none, caption := none, delay := none }

/-- A bulk item with no `to` field. -/
def itNoTo : BulkItem :=
  { recipient := none, message := some "x", attachment := none,
    attachmentType := none, caption := none, delay := none }

/-- A transport in which every send succeeds. -/
def okOutcome : Nat → Except String Unit := fun _ => Except.ok ()

/-- A transport in which the first item's send throws and the rest succeed. -/
def failFirstOutcome : Nat → Except String Unit :=
  fun i => if i = 0 then Except.error "boom" else Except.ok ()

/-! ## Helper lemmas -/

/-- Each bulk item contributes exactly one entry to `results`. -/
theorem sendBulkGo_length (outcome : Nat → Except String Unit) (d : Int)
    (n : Nat) : ∀ (items : List BulkItem) (i : Nat),
    (sendBulkGo outcome d n items i).1.length = items.length := by
  intro items
  induction items with
  | nil => intro i; rfl
  | cons it rest ih =>
    intro i
    by_cases h1 : falsy it.recipient = true
    · simp [sendBulkGo, h1, ih]
    · by_cases h2 : (falsy it.attachment && falsy it.message) = true
      · simp [sendBulkGo, h1, h2, ih]
      · cases h3 : outcome i with
        | ok u => simp [sendBulkGo, h1, h2, h3, ih]
        | error e => simp [sendBulkGo, h1, h2, h3, ih]

/-- The `index` fields of the results are the 1-based input positions,
in input order. -/
theorem sendBulkGo_map_index (outcome : Nat → Except String Unit) (d : Int)
    (n : Nat) : ∀ (items : List BulkItem) (i : Nat),
    (sendBulkGo outcome d n items i).1.map (fun r => r.index)
      = List.range' (i + 1) items.length := by
  intro items
  induction items with
  | nil => intro i; rfl
  | cons it rest ih =>
    intro i
    by_cases h1 : falsy it.recipient = true
    · simp [sendBulkGo, h1, ih, missingToResult, List.range'_succ, Nat.add_assoc]
    · by_cases h2 : (falsy it.attachment && falsy it.message) = true
      · simp [sendBulkGo, h1, h2, ih, List.range'_succ, Nat.add_assoc]
      · cases h3 : outcome i with
        | ok u => simp [sendBulkGo, h1, h2, h3, ih, List.range'_succ, Nat.add_assoc]
        | error e => simp [sendBulkGo, h1, h2, h3, ih, List.range'_succ, Nat.add_assoc]

/-- A Boolean filter and its negation partition the length of a list. -/
theorem filterPartitionLength {α : Type} (p : α → Bool) :
    ∀ (l : List α),
    (l.filter p).length + (l.filter (fun a => !p a)).length = l.length := by
  intro l
  induction l with
  | nil => rfl
  | cons a l ih =>
    cases h : p a <;> simp [List.filter_cons, h] <;> omega

/-- The send-helper invocations recorded by the bulk loop starting at
position `k` all carry 1-based index at least `k + 1`. -/
theorem sendBulkGo_send_ge (outcome : Nat → Except String Unit) (d : Int)
    (n : Nat) : ∀ (items : List BulkItem) (k m : Nat),
    Effect.send m ∈ (sendBulkGo outcome d n items k).2 → k + 1 ≤ m := by
  intro items
  induction items with
  | nil => intro k m h; simp [sendBulkGo] at h
  | cons it rest ih =>
    intro k m h
    by_cases h1 : falsy it.recipient = true
    · have he : (sendBulkGo outcome d n (it :: rest) k).2
          = (sendBulkGo outcome d n rest (k + 1)).2 := by
        simp [sendBulkGo, h1]
      rw [he] at h
      exact Nat.le_of_succ_le (ih (k + 1) m h)
    · by_cases h2 : (falsy it.attachment && falsy it.message) = true
      · have he : (sendBulkGo outcome d n (it :: rest) k).2
            = (sendBulkGo outcome d n rest (k + 1)).2 := by
          simp [sendBulkGo, h1, h2]
        rw [he] at h
        exact Nat.le_of_succ_le (ih (k + 1) m h)
      · cases h3 : outcome k with
        | ok u =>
          by_cases h4 : k < n - 1 ∧ effDelay d it > 0
          · have he : (sendBulkGo outcome d n (it :: rest) k).2
                = Effect.send (k + 1) :: Effect.sleep (effDelay d it)
                    :: (sendBulkGo outcome d n rest (k + 1)).2 := by
              simp [sendBulkGo, h1, h2, h3, h4]
            rw [he, List.mem_cons, List.mem_cons] at h
            rcases h with h | h | h
            · simp only [Effect.send.injEq] at h; omega
            · simp at h
            · exact Nat.le_of_succ_le (ih (k + 1) m h)
          · have he : (sendBulkGo outcome d n (it :: rest) k).2
                = Effect.send (k + 1)
                    :: (sendBulkGo outcome d n rest (k + 1)).2 := by
              simp [sendBulkGo, h1, h2, h3, h4]
            rw [he, List.mem_cons] at h
            rcases h with h | h
            · simp only [Effect.send.injEq] at h; omega
            · exact Nat.le_of_succ_le (ih (k + 1) m h)
        | error e =>
          have he : (sendBulkGo outcome d n (it :: rest) k).2
              = Effect.send (k + 1)
                  :: (sendBulkGo outcome d n rest (k + 1)).2 := by
            simp [sendBulkGo, h1, h2, h3]
          rw [he, List.mem_cons] at h
          rcases h with h | h
          · simp only [Effect.send.injEq] at h; omega
          · exact Nat.le_of_succ_le (ih (k + 1) m h)

/-- The sleeps the bulk loop performs are exactly those described by
`sleepsSpec`. -/
theorem sendBulkGo_sleeps (outcome : Nat → Except String Unit) (d : Int)
    (n : Nat) : ∀ (items : List BulkItem) (i : Nat),
    sleepsOf (sendBulkGo outcome d n items i).2
      = sleepsSpec outcome d n items i := by
  intro items
  induction items with
  | nil => intro i; rfl
  | cons it rest ih =>
    intro i
    by_cases h1 : falsy it.recipient = true
    · simp [sendBulkGo, sleepsSpec, itemOk, h1, ih]
    · by_cases h2 : (falsy it.attachment && falsy it.message) = true
      · simp [sendBulkGo, sleepsSpec, itemOk, h1, h2, ih]
      · cases h3 : outcome i with
        | ok u =>
          by_cases h4 : i < n - 1 ∧ effDelay d it > 0
          · simp [sendBulkGo, sleepsSpec, sleepsOf, itemOk, h1, h2, h3, h4, ih]
          · simp [sendBulkGo, sleepsSpec, sleepsOf, itemOk, h1, h2, h3, h4, ih]
        | error e =>
          simp [sendBulkGo, sleepsSpec, sleepsOf, itemOk, h1, h2, h3, ih]

/-- The `qr` handler is the only way into `QR Code Generated` and it always
stores a payload, so the status implies a stored payload (step form). -/
theorem stepEvent_qr_inv (s : MState) (e : WEvent) :
    (stepEvent s e).status = Status.QRPending →
      (stepEvent s e).qrCode.isSome = true := by
  cases e <;> simp [stepEvent]

/-- The payload-presence invariant is preserved along any event sequence. -/
theorem runEvents_qr_inv : ∀ (es : List WEvent) (s : MState),
    (s.status = Status.QRPending → s.qrCode.isSome = true) →
    (runEvents s es).status = Status.QRPending →
      (runEvents s es).qrCode.isSome = true := by
  intro es
  induction es with
  | nil => intro s h; exact h
  | cons e es ih =>
    intro s _
    exact ih (stepEvent s e) (stepEvent_qr_inv s e)

/-- No handler ever re-registers a session (step form). -/
theorem stepEvent_registered (s : MState) (e : WEvent)
    (h : s.registered = false) : (stepEvent s e).registered = false := by
  cases e <;> simp [stepEvent, h]

/-- Once a session is removed from the registry, no later event sequence
re-registers that instance. -/
theorem runEvents_registered : ∀ (es : List WEvent) (s : MState),
    s.registered = false → (runEvents s es).registered = false := by
  intro es
  induction es with
  | nil => intro s h; exact h
  | cons e es ih =>
    intro s h
    exact ih (stepEvent s e) (stepEvent_registered s e h)

/-- Once the elapsed time reaches the timeout, the wait loop exits with the
last-known-status result, whatever fuel remains. -/
theorem waitAux_exit (trace : Nat → Option SessView) (T : Int) (fuel k : Nat)
    (h : ¬1000 * (k : Int) < T) :
    waitAux trace T fuel k = timeoutResult trace k := by
  cases fuel with
  | zero => rfl
  | succ fuel => simp only [waitAux]; rw [if_neg h]

/-- Characterization of the poll loop's success: with enough fuel, the loop
starting at poll `k` reports `connected = true` exactly when some in-window
poll at or after `k` sees a connected session, and no earlier poll in the
loop triggers the QR early return. -/
theorem waitAux_connected_iff (trace : Nat → Option SessView) (T : Int) :
    ∀ (fuel k : Nat), T ≤ 1000 * ((k + fuel : Nat) : Int) →
    ((waitAux trace T fuel k).connected = true ↔
      ∃ m, k ≤ m ∧ 1000 * (m : Int) < T ∧ viewConnected (trace m) = true ∧
        ∀ j, k ≤ j → j < m → viewQrBlocks (trace j) = false) := by
  intro fuel
  induction fuel with
  | zero =>
    intro k hk
    constructor
    · intro h
      simp [waitAux, timeoutResult] at h
    · rintro ⟨m, hkm, hmT, -, -⟩
      exfalso
      have hkm2 : (k : Int) ≤ (m : Int) := by exact_mod_cast hkm
      push_cast at hk
      omega
  | succ fuel ih =>
    intro k hk
    by_cases hT : 1000 * (k : Int) < T
    · cases htr : trace k with
      | none =>
        have he : waitAux trace T (fuel + 1) k = waitAux trace T fuel (k + 1) := by
          simp [waitAux, hT, htr]
        have hk2 : T ≤ 1000 * ((k + 1 + fuel : Nat) : Int) := by
          push_cast at hk ⊢; omega
        rw [he, ih (k + 1) hk2]
        constructor
        · rintro ⟨m, hkm, hmT, hc, hb⟩
          refine ⟨m, by omega, hmT, hc, ?_⟩
          intro j hj1 hj2
          rcases Nat.lt_or_ge j (k + 1) with hj | hj
          · have hjk : j = k := by omega
            subst hjk
            simp [viewQrBlocks, htr]
          · exact hb j hj hj2
        · rintro ⟨m, hkm, hmT, hc, hb⟩
          have hmk : m ≠ k := by
            intro hmk; subst hmk
            simp [viewConnected, htr] at hc
          exact ⟨m, by omega, hmT, hc, fun j hj1 hj2 => hb j (by omega) hj2⟩
      | some s =>
        by_cases hc : s.status = Status.Connected
        · have he : waitAux trace T (fuel + 1) k
              = { connected := true, qrCode := none, status := none } := by
            simp [waitAux, hT, htr, hc]
          rw [he]
          constructor
          · intro _
            exact ⟨k, le_refl k, hT, by simp [viewConnected, htr, hc],
              fun j hj1 hj2 => absurd hj2 (by omega)⟩
          · intro _; rfl
        · by_cases hq : falsy s.qrCode = true
          · have he : waitAux trace T (fuel + 1) k
                = waitAux trace T fuel (k + 1) := by
              simp [waitAux, hT, htr, hc, hq]
            have hk2 : T ≤ 1000 * ((k + 1 + fuel : Nat) : Int) := by
              push_cast at hk ⊢; omega
            rw [he, ih (k + 1) hk2]
            constructor
            · rintro ⟨m, hkm, hmT, hcm, hb⟩
              refine ⟨m, by omega, hmT, hcm, ?_⟩
              intro j hj1 hj2
              rcases Nat.lt_or_ge j (k + 1) with hj | hj
              · have hjk : j = k := by omega
                subst hjk
                simp [viewQrBlocks, htr, hq]
              · exact hb j hj hj2
            · rintro ⟨m, hkm, hmT, hcm, hb⟩
              have hmk : m ≠ k := by
                intro hmk; subst hmk
                simp [viewConnected, htr, hc] at hcm
              exact ⟨m, by omega, hmT, hcm, fun j hj1 hj2 => hb j (by omega) hj2⟩
          · have he : waitAux trace T (fuel + 1) k
                = { connected := false, qrCode := s.qrCode,
                    status := some (statusString s.status) } := by
              simp [waitAux, hT, htr, hc, hq]
            rw [he]
            constructor
            · intro h
              simp at h
            · rintro ⟨m, hkm, hmT, hcm, hb⟩
              exfalso
              rcases Nat.eq_or_lt_of_le hkm with hmk | hmk
              · subst hmk
                simp [viewConnected, htr, hc] at hcm
              · have hbk := hb k (le_refl k) hmk
                simp [viewQrBlocks, htr, hc, hq] at hbk
    · rw [waitAux_exit trace T (fuel + 1) k hT]
      constructor
      · intro h
        simp [timeoutResult] at h
      · rintro ⟨m, hkm, hmT, -, -⟩
        exfalso
        have hkm2 : (k : Int) ≤ (m : Int) := by exact_mod_cast hkm
        omega

/-! ## Claim theorems -/

/-- C1: for every non-empty input list of N bulk items, `sendBulk` produces a
result sequence with exactly N entries whose `index` fields are 1..N in input
order, one entry per input item, regardless of which individual sends fail;
the emitted summary's `total` equals N and `successful + failed` equals N. -/
theorem C1_sendBulk_results_complete (outcome : Nat → Except String Unit)
    (d : Int) (items : List BulkItem) (h : items ≠ []) :
    (sendBulkSummary outcome d items).results.length = items.length ∧
    (sendBulkSummary outcome d items).results.map (fun r => r.index)
      = List.range' 1 items.length ∧
    (sendBulkSummary outcome d items).total = items.length ∧
    (sendBulkSummary outcome d items).successful
      + (sendBulkSummary outcome d items).failed = items.length := by
  refine ⟨?_, ?_, rfl, ?_⟩
  · exact sendBulkGo_length outcome d items.length items 0
  · exact sendBulkGo_map_index outcome d items.length items 0
  · have hp := filterPartitionLength (fun r => r.success)
      (sendBulk outcome d items).1
    have hl := sendBulkGo_length outcome d items.length items 0
    calc (sendBulkSummary outcome d items).successful
        + (sendBulkSummary outcome d items).failed
      = (sendBulk outcome d items).1.length := hp
    _ = items.length := hl

/-- C1 witness: a concrete singleton batch. -/
theorem C1_sendBulk_results_complete_witness :
    (([itHi] : List BulkItem) ≠ []) ∧
    ((sendBulkSummary okOutcome 2000 [itHi]).results.length = [itHi].length ∧
     (sendBulkSummary okOutcome 2000 [itHi]).results.map (fun r => r.index)
       = List.range' 1 [itHi].length ∧
     (sendBulkSummary okOutcome 2000 [itHi]).total = [itHi].length ∧
     (sendBulkSummary okOutcome 2000 [itHi]).successful
       + (sendBulkSummary okOutcome 2000 [itHi]).failed = [itHi].length) :=
  ⟨by decide, C1_sendBulk_results_complete okOutcome 2000 [itHi] (by decide)⟩

/-- C2 counterexample: a two-item batch with default delay 500 whose first
item's send throws.  The claim says the caught failure on item 1 (not the
last item, effective delay 500 > 0) is followed by a 500 ms suspension; the
code performs no sleep at all: the effect trace is just the two send
attempts. -/
theorem C2_delay_after_failure_cex :
    (sendBulk failFirstOutcome 500 [itA, itB]).2
      = [Effect.send 1, Effect.send 2] ∧
    sleepsOf (sendBulk failFirstOutcome 500 [itA, itB]).2 = [] ∧
    effDelay 500 itA = 500 ∧ ((0 : Int) < 500) ∧
    (sendBulk failFirstOutcome 500 [itA, itB]).1.map (fun r => r.success)
      = [false, true] ∧
    (sendBulk failFirstOutcome 500 [itA, itB]).1.map (fun r => r.error)
      = [some "boom", none] := by
  refine ⟨rfl, rfl, rfl, by norm_num, rfl, rfl⟩

/-- C2 (amended): the bulk loop suspends exactly once after each
*successfully* processed item that is not the last item and whose effective
delay (`item.delay` if defined, else the batch default) is positive, for
exactly that duration, in item order; no suspension follows an item that is
recorded as failed (missing `to`, missing content, or a caught send error),
and none follows the final item. -/
theorem C2_sendBulk_pacing (outcome : Nat → Except String Unit) (d : Int)
    (items : List BulkItem) :
    sleepsOf (sendBulk outcome d items).2
      = sleepsSpec outcome d items.length items 0 :=
  sendBulkGo_sleeps outcome d items.length items 0

/-- C3 counterexample: a session that shows a pending QR payload at poll 0
and is `Connected` from the 1000 ms poll on, with a 60000 ms timeout.  The
status reaches `Connected` strictly before the timeout, yet the wait returns
`connected = false` (the QR early return), refuting the claimed
"if and only if". -/
theorem C3_wait_early_qr_cex :
    (waitForConnection qrThenConnTrace 60000).connected = false ∧
    viewConnected (qrThenConnTrace 1) = true ∧
    ((1000 * (1 : Nat) : Int) < 60000) ∧
    (waitForConnection qrThenConnTrace 60000).qrCode = some "Q" := by
  refine ⟨rfl, rfl, by norm_num, rfl⟩

/-- C3 (amended): `wait(id, T)` polls at 1-second instants; it returns
`connected = true` if and only if some poll strictly inside the `T` ms window
sees status `Connected` and no earlier poll saw a non-connected session with
a pending handshake payload (which instead returns `connected = false` with
the payload at once).  The loop returns at the first poll where either
condition holds rather than consuming the remaining timeout. -/
theorem C3_wait_connected_iff (trace : Nat → Option SessView) (T : Int) :
    (waitForConnection trace T).connected = true ↔
      ∃ m : Nat, 1000 * (m : Int) < T ∧ viewConnected (trace m) = true ∧
        ∀ j, j < m → viewQrBlocks (trace j) = false := by
  have hfuel : T ≤ 1000 * ((0 + (T.toNat + 1) : Nat) : Int) := by
    push_cast
    omega
  rw [waitForConnection, waitAux_connected_iff trace T (T.toNat + 1) 0 hfuel]
  constructor
  · rintro ⟨m, -, hmT, hc, hb⟩
    exact ⟨m, hmT, hc, fun j hj => hb j (Nat.zero_le j) hj⟩
  · rintro ⟨m, hmT, hc, hb⟩
    exact ⟨m, Nat.zero_le m, hmT, hc, fun j _ hj => hb j hj⟩

/-- C4 counterexample: after the event sequence `qr "X"`, `authenticated`,
the session's status is `Connected` (not `QRPending`) while the payload is
still `some "X"`: the `authenticated` handler does not clear the payload, so
"payload non-null iff status = QRPending" fails on the code. -/
theorem C4_qr_payload_iff_cex :
    (runEvents (initState true) [WEvent.qr "X", WEvent.authenticated]).qrCode
      = some "X" ∧
    (runEvents (initState true) [WEvent.qr "X", WEvent.authenticated]).status
      = Status.Connected ∧
    Status.Connected ≠ Status.QRPending := by
  refine ⟨rfl, rfl, by decide⟩

/-- C4 (amended): in every state reachable from initialization, status
`QR Code Generated` implies a stored handshake payload, and the `ready`
transition clears the payload in the same transition; the `authenticated`
transition sets `Connected` but leaves the payload untouched, so the payload
may remain non-null after the status has left `QRPending`. -/
theorem C4_qr_payload_invariant (cd : Bool) (es : List WEvent) :
    ((runEvents (initState cd) es).status = Status.QRPending →
      (runEvents (initState cd) es).qrCode.isSome = true) ∧
    (∀ s : MState, (stepEvent s WEvent.ready).qrCode = none ∧
      (stepEvent s WEvent.authenticated).qrCode = s.qrCode) := by
  constructor
  · exact runEvents_qr_inv es (initState cd) (by simp [initState])
  · intro s
    exact ⟨rfl, rfl⟩

/-- C4 witness: the amended invariant applied after a single `qr` event. -/
theorem C4_qr_payload_invariant_witness :
    (runEvents (initState true) [WEvent.qr "Q"]).status = Status.QRPending ∧
    (runEvents (initState true) [WEvent.qr "Q"]).qrCode.isSome = true :=
  ⟨by decide, (C4_qr_payload_invariant true [WEvent.qr "Q"]).1 (by decide)⟩

/-- C5 counterexample: for the inline string `"a,b,c"` (not a local path, not
an URL) with an explicit MIME type, the code decodes `split(',')[1] = "b"`,
not "everything after the first comma" (`"b,c"`) as the claim states. -/
theorem C5_attachment_comma_cex :
    resolveMedia (fun _ => false) "a,b,c" (some "text/plain")
      = Except.ok (Media.base64 "text/plain" "b" "file") ∧
    stripThroughFirstComma "a,b,c" = "b,c" ∧
    Media.base64 "text/plain" "b" "file"
      ≠ Media.base64 "text/plain" (stripThroughFirstComma "a,b,c") "file" := by
  refine ⟨rfl, rfl, by decide⟩

/-- C5 (amended): attachment resolution for a single string input follows the
precedence: existing local file path, else HTTP(S) URL, else inline base64;
in the inline case a truthy MIME type is required — a missing *or
empty-string* type fails with the validation error — and when the string
contains a comma the decoded payload is `split(',')[1]` — the segment between
the first and second commas — rather than everything after the first comma. -/
theorem C5_attachment_resolution (fileExists : String → Bool) (file : String)
    (t : Option String) :
    (fileExists file = true →
      resolveMedia fileExists file t = Except.ok (Media.fromFilePath file)) ∧
    (fileExists file = false → strStartsWith file "http" = true →
      resolveMedia fileExists file t = Except.ok (Media.fromUrl file)) ∧
    (fileExists file = false → strStartsWith file "http" = false →
      falsy t = true →
      resolveMedia fileExists file t
        = Except.error "The \"type\" parameter is required for Base64 attachments.") ∧
    (∀ ty, fileExists file = false → strStartsWith file "http" = false →
      t = some ty → ¬ty = "" →
      resolveMedia fileExists file t = Except.ok (Media.base64 ty
        (if file.data.contains ',' then (splitComma file).getD 1 "" else file)
        "file")) := by
  refine ⟨?_, ?_, ?_, ?_⟩ <;> intros <;> simp_all [resolveMedia, falsy]

/-- C5 witness: a bare non-path, non-URL string fails with the validation
error when the MIME type is absent and also when it is the empty string,
and resolves inline when the type is truthy. -/
theorem C5_attachment_resolution_witness :
    (falsy (none : Option String) = true) ∧
    (falsy (some "") = true) ∧
    resolveMedia (fun _ => false) "AAAA" none
      = Except.error "The \"type\" parameter is required for Base64 attachments." ∧
    resolveMedia (fun _ => false) "AAAA" (some "")
      = Except.error "The \"type\" parameter is required for Base64 attachments." ∧
    resolveMedia (fun _ => false) "QUFBQQ==" (some "text/plain")
      = Except.ok (Media.base64 "text/plain" "QUFBQQ==" "file") :=
  ⟨rfl, by decide,
    (C5_attachment_resolution (fun _ => false) "AAAA" none).2.2.1
      rfl (by decide) rfl,
    (C5_attachment_resolution (fun _ => false) "AAAA" (some "")).2.2.1
      rfl (by decide) (by decide),
    (C5_attachment_resolution (fun _ => false) "QUFBQQ==" (some "text/plain")).2.2.2
      "text/plain" rfl (by decide) rfl (by decide)⟩

/-- C6: an item whose `to` is missing (falsy) contributes exactly one failed
result with error text exactly "Missing required parameter: to", triggers no
send-helper call and no inter-item delay (its step adds no effect at all),
and the remaining items are processed exactly as they otherwise would be;
in particular its own index's send is nowhere in the batch's effect trace. -/
theorem C6_missing_to_skips (outcome : Nat → Except String Unit) (d : Int)
    (n : Nat) (it : BulkItem) (rest : List BulkItem) (i : Nat)
    (h : falsy it.recipient = true) :
    sendBulkGo outcome d n (it :: rest) i
      = (missingToResult (i + 1) :: (sendBulkGo outcome d n rest (i + 1)).1,
         (sendBulkGo outcome d n rest (i + 1)).2) ∧
    (missingToResult (i + 1)).success = false ∧
    (missingToResult (i + 1)).error = some "Missing required parameter: to" ∧
    Effect.send (i + 1) ∉ (sendBulkGo outcome d n (it :: rest) i).2 ∧
    (sendBulkGo outcome d n (it :: rest) i).1.length = (it :: rest).length := by
  have he : sendBulkGo outcome d n (it :: rest) i
      = (missingToResult (i + 1) :: (sendBulkGo outcome d n rest (i + 1)).1,
         (sendBulkGo outcome d n rest (i + 1)).2) := by
    simp [sendBulkGo, h]
  refine ⟨he, rfl, rfl, ?_, sendBulkGo_length outcome d n (it :: rest) i⟩
  intro hmem
  rw [he] at hmem
  have := sendBulkGo_send_ge outcome d n rest (i + 1) (i + 1) hmem
  omega

/-- C6 witness: a concrete one-item batch with no `to`. -/
theorem C6_missing_to_skips_witness :
    (falsy itNoTo.recipient = true) ∧
    (sendBulkGo okOutcome 2000 1 [itNoTo] 0
       = (missingToResult 1 :: (sendBulkGo okOutcome 2000 1 [] 1).1,
          (sendBulkGo okOutcome 2000 1 [] 1).2) ∧
     (missingToResult 1).success = false ∧
     (missingToResult 1).error = some "Missing required parameter: to" ∧
     Effect.send 1 ∉ (sendBulkGo okOutcome 2000 1 [itNoTo] 0).2 ∧
     (sendBulkGo okOutcome 2000 1 [itNoTo] 0).1.length = [itNoTo].length) :=
  ⟨by decide, C6_missing_to_skips okOutcome 2000 1 itNoTo [] 0 (by decide)⟩

/-- C7: any send (text or attachment) against a session that is absent from
the registry or not `Connected` fails with the connection error naming the
session's current status (or `Not found` when absent), and performs no
transport send (the `Except.error` return carries no send). -/
theorem C7_send_requires_connected (fileExists : String → Bool)
    (reg : Registry) (sessionId recipient message file caption : String)
    (t : Option String)
    (h : ¬regStatus reg sessionId = some Status.Connected) :
    sendMessage reg sessionId recipient message
      = Except.error (notConnectedMsg reg sessionId) ∧
    sendAttachment fileExists reg sessionId recipient file caption t
      = Except.error (notConnectedMsg reg sessionId) := by
  constructor
  · simp [sendMessage, h]
  · simp [sendAttachment, h]

/-- C7 witness: a registry holding a disconnected session. -/
theorem C7_send_requires_connected_witness :
    (¬regStatus [("s1", Status.Disconnected)] "s1" = some Status.Connected) ∧
    sendMessage [("s1", Status.Disconnected)] "s1" "123" "hi"
      = Except.error "Session s1 is not connected. Current status: Disconnected" ∧
    sendAttachment (fun _ => false) [("s1", Status.Disconnected)] "s1" "123"
        "f" "" none
      = Except.error "Session s1 is not connected. Current status: Disconnected" :=
  ⟨by decide,
    C7_send_requires_connected (fun _ => false) [("s1", Status.Disconnected)]
      "s1" "123" "hi" "f" "" none (by decide)⟩

/-- C8: the `auth_failure` handler deletes the session's credential directory
and removes the session from the registry; the `disconnected` handler removes
the session from the registry but leaves the credential directory unchanged
on disk; and once removed, no later event re-registers that instance. -/
theorem C8_terminal_events (s : MState) (es : List WEvent) :
    (stepEvent s WEvent.authFailure).credDir = false ∧
    (stepEvent s WEvent.authFailure).registered = false ∧
    (stepEvent s WEvent.disconnected).credDir = s.credDir ∧
    (stepEvent s WEvent.disconnected).registered = false ∧
    (s.registered = false → (runEvents s es).registered = false) :=
  ⟨rfl, rfl, rfl, rfl, runEvents_registered es s⟩

/-- C8 witness: a disconnected session stays unregistered under a later
event. -/
theorem C8_terminal_events_witness :
    ((stepEvent (initState true) WEvent.disconnected).registered = false) ∧
    (runEvents (stepEvent (initState true) WEvent.disconnected)
        [WEvent.qr "Q"]).registered = false :=
  ⟨by decide,
    (C8_terminal_events (stepEvent (initState true) WEvent.disconnected)
      [WEvent.qr "Q"]).2.2.2.2 (by decide)⟩

/-- C9: recipient normalization keeps exactly the decimal digits and appends
"@c.us"; the spec's example normalizes as stated, and a string of bare digits
maps to itself plus the suffix. -/
theorem C9_normalize_recipient (s : String)
    (h : s.data.all Char.isDigit = true) :
    normalizeRecipient "+1 (555) 123-4567" = "15551234567@c.us" ∧
    normalizeRecipient s = s ++ "@c.us" := by
  constructor
  · rfl
  · have hf : s.data.filter Char.isDigit = s.data :=
      List.filter_eq_self.mpr (by simpa [List.all_eq_true] using h)
    cases s with
    | mk data =>
      simp only [normalizeRecipient] at hf ⊢
      rw [hf]

/-- C9 witness: a bare digit string. -/
theorem C9_normalize_recipient_witness :
    (("123" : String).data.all Char.isDigit = true) ∧
    normalizeRecipient "123" = "123" ++ "@c.us" :=
  ⟨by decide, (C9_normalize_recipient "123" (by decide)).2⟩

/-- C10: with a timeout of zero or less the poll loop body is never entered,
so the wait returns immediately with `connected = false` and the session's
last known status (or "Not found"), even when the session is already
`Connected` at the moment of the call. -/
theorem C10_wait_nonpositive_timeout (trace : Nat → Option SessView) (T : Int)
    (h : T ≤ 0) :
    waitForConnection trace T
      = { connected := false, qrCode := none,
          status := some (viewStatusString (trace 0)) } := by
  rw [waitForConnection, waitAux_exit trace T (T.toNat + 1) 0 (by omega)]
  cases htr : trace 0 <;> simp [timeoutResult, viewStatusString, htr]

/-- C10 witness: timeout 0 against an already-connected session still returns
`connected = false` with the last known status. -/
theorem C10_wait_nonpositive_timeout_witness :
    ((0 : Int) ≤ 0) ∧
    (connTrace 0 = some { status := Status.Connected, qrCode := none }) ∧
    waitForConnection connTrace 0
      = { connected := false, qrCode := none, status := some "Connected" } :=
  ⟨le_refl 0, rfl, C10_wait_nonpositive_timeout connTrace 0 (le_refl 0)⟩
